import Mathlib

/-!
Verification of the notification_system repository.

Shallow embedding of the core dispatch pipeline:
* `core/core/retry.py`            — `retry_with_backoff`
* `core/core/circuit_breaker.py`  — `CircuitBreaker`
* `core/core/redis_client.py`     — `check_and_set_idempotency_key`
* `core/api_gateway/views.py`     — `NotificationAPIView.post`
* `core/email_service/consumers/email_consumer.py` — `EmailConsumer`
* `core/push_service/consumers/push_consumer.py`   — `PushConsumer`

Conventions: wall-clock instants are naturals; a Python function that may
raise is modelled as returning `Except`/a sum, with the raising behaviour of
collaborators passed in as explicit inputs; Redis is modelled as the list of
currently unexpired keys (`none` when the client failed to initialize);
text is `List Char`, and the string form of a variable value is the
`List Char` it is bound to.
-/

namespace NotifSys

/-! ## Retry with backoff (`core/core/retry.py`)

The wrapped function's behaviour is `beh : Nat → Except E A`: the outcome of
its (i+1)-th invocation.  Sleeping and the delay schedule do not affect which
calls are made, so they are not modelled.  `retryLoop` mirrors the
`while True` loop with `retry_count = c`; the fuel argument equals
`retries - c`, so `fuel = 0` exactly when `retry_count + 1 > retries`.
The result is (number of invocations, final outcome). -/

def retryLoop {E A : Type} (beh : Nat → Except E A) : Nat → Nat → Nat × Except E A
  | c, fuel =>
    match beh c with
    | .ok a => (c + 1, .ok a)
    | .error e =>
      match fuel with
      | 0 => (c + 1, .error e)
      | fuel' + 1 => retryLoop beh (c + 1) fuel'

/-- `retry_with_backoff(retries=...)` applied to a function with behaviour
`beh`, from `core/core/retry.py` lines 16–48. -/
def retry_with_backoff {E A : Type} (retries : Nat) (beh : Nat → Except E A) :
    Nat × Except E A :=
  retryLoop beh 0 retries

/-! ## Circuit breaker (`core/core/circuit_breaker.py`) -/

inductive CBState where
  | CLOSED
  | OPEN
  | HALF_OPEN
  deriving DecidableEq, Repr

structure CircuitBreaker where
  failure_threshold : Nat
  recovery_timeout : Nat
  state : CBState
  failure_count : Nat
  last_failure_time : Nat
  deriving DecidableEq, Repr

/-- `CircuitBreaker(failure_threshold, recovery_timeout)` constructor. -/
def CircuitBreaker.init (failure_threshold : Nat := 5) (recovery_timeout : Nat := 60) :
    CircuitBreaker :=
  { failure_threshold := failure_threshold
    recovery_timeout := recovery_timeout
    state := .CLOSED
    failure_count := 0
    last_failure_time := 0 }

/-- `CircuitBreaker.reset`, lines 50–54. -/
def CircuitBreaker.reset (cb : CircuitBreaker) : CircuitBreaker :=
  { cb with state := .CLOSED, failure_count := 0, last_failure_time := 0 }

/-- Outcome of one guarded call: the wrapper raised `Circuit breaker is OPEN`
without invoking the function, or the function was invoked and returned,
or the function was invoked and its exception was re-raised. -/
inductive CBOutcome where
  | circuitOpen
  | funcSuccess
  | funcFailure
  deriving DecidableEq, Repr

/-- Body of the `wrapper` closure in `CircuitBreaker.__call__`, lines 15–46.
`now` is `time.time()`; `ok` tells whether `func(*args, **kwargs)` would
return normally (`true`) or raise (`false`) if invoked. -/
def CircuitBreaker.call (cb : CircuitBreaker) (now : Nat) (ok : Bool) :
    CBOutcome × CircuitBreaker :=
  -- lines 19–23: lazily move OPEN → HALF-OPEN, or fail fast
  let openCheck : Option CircuitBreaker :=
    if cb.state = .OPEN then
      if now - cb.last_failure_time > cb.recovery_timeout then
        some { cb with state := .HALF_OPEN }
      else
        none
    else
      some cb
  match openCheck with
  | none => (.circuitOpen, cb)
  | some cb1 =>
    if ok then
      -- lines 26–31
      if cb1.state = .HALF_OPEN then (.funcSuccess, cb1.reset)
      else (.funcSuccess, cb1)
    else
      -- lines 33–46
      let cb2 := { cb1 with failure_count := cb1.failure_count + 1,
                            last_failure_time := now }
      if cb2.failure_count ≥ cb2.failure_threshold ∧ cb2.state ≠ .OPEN then
        (.funcFailure, { cb2 with state := .OPEN, last_failure_time := now })
      else if cb2.state = .HALF_OPEN then
        (.funcFailure, { cb2 with state := .OPEN })
      else
        (.funcFailure, cb2)

/-- Run a sequence of guarded calls, each given as `(time, ok)`. -/
def CircuitBreaker.run (cb : CircuitBreaker) : List (Nat × Bool) → CircuitBreaker
  | [] => cb
  | (now, ok) :: rest => ((cb.call now ok).2).run rest

/-! ## Template variable substitution
(`email_consumer.py` lines 89–94 and `push_consumer.py` lines 83–88)

Python's `str.replace(old, new)` replaces every leftmost, non-overlapping
occurrence scanning left to right.  `replaceAllF` is the same scan with an
explicit fuel argument (one unit per character examined) so that it is
structurally recursive; `replaceAll t pat rep` supplies fuel `t.length`,
which `replaceAllF_fuel` shows is enough. -/

def replaceAllF (pat rep : List Char) : Nat → List Char → List Char
  | 0, t => t
  | fuel + 1, t =>
    match t with
    | [] => []
    | c :: t' =>
      if pat ≠ [] ∧ pat <+: (c :: t') then
        rep ++ replaceAllF pat rep fuel ((c :: t').drop pat.length)
      else
        c :: replaceAllF pat rep fuel t'

/-- `t.replace(pat, rep)` for a nonempty pattern. -/
def replaceAll (t pat rep : List Char) : List Char :=
  replaceAllF pat rep t.length t

/-- The literal text `{{key}}`, as built by `f'{{{{{key}}}}}'`. -/
def token (key : List Char) : List Char :=
  '{' :: '{' :: (key ++ ['}', '}'])

/-- `_substitute_variables(template_content, variables)`: for each
`(key, value)` pair in order, `result = result.replace('{{key}}', str(value))`.
A variable's value is modelled by its string form (`str(value)`). -/
def substitute_variables (template_content : List Char)
    (vars : List (List Char × List Char)) : List Char :=
  vars.foldl (fun result kv => replaceAll result (token kv.1) kv.2)
    template_content

/-- The `merged_variables` dict literal of `email_consumer.py` lines 141–144 /
`push_consumer.py` lines 161–164:
`{'name': first_name + ' ' + last_name, **variables}`.  Python keeps the
`'name'` key in first position; a caller-supplied `name` overrides its value;
the remaining caller entries follow in their own order. -/
def merged_variables (first_name last_name : List Char)
    (vars : List (List Char × List Char)) : List (List Char × List Char) :=
  ("name".data,
      (match vars.lookup "name".data with
        | some v => v
        | none => first_name ++ ' ' :: last_name)) ::
    vars.filter (fun kv => kv.1 ≠ "name".data)

/-! ## Idempotency store (`core/core/redis_client.py`)

The store is `none` when the module-level `redis_client` failed to
initialize, otherwise `some keys` where `keys` are the currently unexpired
idempotency keys (TTL expiry itself is not modelled; `keys` is the state at
the instant of the call). -/

/-- `check_and_set_idempotency_key(key)`, lines 18–32: returns
`(is_new, new store)`.  `setnx` is one atomic test-and-set. -/
def check_and_set_idempotency_key (store : Option (List String)) (key : String) :
    Bool × Option (List String) :=
  match store with
  | none => (true, none)          -- "Assume new if Redis is not available"
  | some keys =>
    if key ∈ keys then (false, some keys)
    else (true, some (key :: keys))

/-! ## Intake gateway (`core/api_gateway/views.py`, `NotificationAPIView.post`) -/

/-- A validated notification request (`NotificationRequestSerializer`).
`request_id` is `none` when the field was absent. -/
structure NotificationRequest where
  notification_type : String
  user_id : String
  template_code : String
  vars : List (List Char × List Char)
  request_id : Option String
  priority : Int
  metadata : List (String × String)
  deriving DecidableEq, Repr

/-- `NotificationRequestSerializer.is_valid()`: the serializer's only check
not already enforced by the types of `NotificationRequest` is the
`ChoiceField` on `notification_type` (and that a present `request_id` is not
blank, since `CharField` rejects blank input). -/
def serializer_is_valid (r : NotificationRequest) : Bool :=
  (r.notification_type == "email" || r.notification_type == "push") &&
    r.request_id != some ""

/-- The `message_payload` dict of `views.py` lines 78–85. -/
structure QueueMessage where
  request_id : String
  user_id : String
  template_code : String
  vars : List (List Char × List Char)
  priority : Int
  metadata : List (String × String)
  deriving DecidableEq, Repr

/-- The envelope built by `standardized_response` (`core/core/utils.py`). -/
structure GatewayResponse where
  success : Bool
  data : Option String          -- the `request_id` payload, when present
  error : Option String
  message : String
  http_status : Nat
  deriving DecidableEq, Repr

structure PostOutcome where
  response : GatewayResponse
  store : Option (List String)
  /-- The arguments of each `publish_notification` invocation made. -/
  publisher_calls : List QueueMessage
  deriving DecidableEq, Repr

/-- The 400 envelope of `views.py` lines 59–63. -/
def validation_failure_response : GatewayResponse :=
  { success := false, data := none, error := some "validation",
    message := "", http_status := 400 }

/-- The 200 duplicate envelope of `views.py` lines 71–75. -/
def duplicate_response : GatewayResponse :=
  { success := true, data := none, error := none,
    message := "Duplicate request detected. Notification already processed.",
    http_status := 200 }

/-- The 202 accepted envelope of `views.py` lines 94–99. -/
def accepted_response (request_id : String) : GatewayResponse :=
  { success := true, data := some request_id, error := none,
    message := "Notification request accepted and queued.",
    http_status := 202 }

/-- The 500 publish-failure envelope of `views.py` lines 100–104. -/
def publish_failure_response : GatewayResponse :=
  { success := false, data := none,
    error := some "Failed to queue notification.",
    message := "", http_status := 500 }

/-- `request_id = data.get('request_id') or str(uuid.uuid4())`: a missing or
blank (falsy) `request_id` is replaced by the fresh uuid. -/
def effective_request_id (fresh_id : String) (req : NotificationRequest) : String :=
  match req.request_id with
  | some s => if s = "" then fresh_id else s
  | none => fresh_id

/-- The `message_payload` dict built in `views.py` lines 78–85. -/
def message_payload (request_id : String) (req : NotificationRequest) :
    QueueMessage :=
  { request_id := request_id
    user_id := req.user_id
    template_code := req.template_code
    vars := req.vars
    priority := req.priority
    metadata := req.metadata }

/-- `NotificationAPIView.post`, lines 55–104.  `fresh_id` is the
`str(uuid.uuid4())` that would be generated; `publish_ok` is what
`publish_notification` returns (`false` when the broker connection raises,
lines 34–38 of `rabbitmq_publisher.py`). -/
def NotificationAPIView_post (publish_ok : Bool) (fresh_id : String)
    (req : NotificationRequest) (store : Option (List String)) : PostOutcome :=
  if ¬ serializer_is_valid req then
    { response := validation_failure_response
      store := store
      publisher_calls := [] }
  else
    let request_id := effective_request_id fresh_id req
    match check_and_set_idempotency_key store request_id with
    | (false, store') =>
      { response := duplicate_response
        store := store'
        publisher_calls := [] }
    | (true, store') =>
      let payload : QueueMessage := message_payload request_id req
      let published :=
        if req.notification_type = "email" ∨ req.notification_type = "push" then
          publish_ok
        else false
      let calls :=
        if req.notification_type = "email" ∨ req.notification_type = "push" then
          [payload]
        else []
      if published then
        { response := accepted_response request_id
          store := store'
          publisher_calls := calls }
      else
        { response := publish_failure_response
          store := store'
          publisher_calls := calls }

/-! ## Delivery workers
(`email_consumer.py` `process_message` lines 96–175,
`push_consumer.py` `process_message` lines 124–200)

The collaborator calls (`fetch_user`/`get_user_data`,
`fetch_template`/`get_template_data`) and the provider call (`send_mail` /
`_send_fcm_notification`) are external; their behaviour on this message is
passed in as explicit inputs.  A `.get` on a possibly absent dict key is an
`Option`. -/

/-- The `user_data['data']` dict as read by the consumers: `.get('email')`,
`.get('push_token')`, `.get('first_name', '')`, `.get('last_name', '')`,
`.get('preferences', {}).get('language', 'en')`. -/
structure UserInfo where
  email : Option (List Char)
  push_token : Option (List Char)
  first_name : Option (List Char)
  last_name : Option (List Char)
  language : Option (List Char)
  deriving DecidableEq, Repr

/-- The `template_data['data']` dict: `.get('notification_type')`,
`.get('content', '')`, `.get('subject', 'Notification')`. -/
structure TemplateInfo where
  notification_type : Option String
  content : Option (List Char)
  subject : Option (List Char)
  deriving DecidableEq, Repr

/-- Outcome of one collaborator fetch for this message: the call raised
(e.g. retries exhausted), or it returned `None` (falsy), or it returned a
response dict with a `success` flag and a `data` payload (`{}` defaults
folded into `α`'s `Option` fields). -/
inductive FetchOutcome (α : Type) where
  | raised
  | returnedNone
  | returned (success : Bool) (data : α)
  deriving DecidableEq, Repr

/-- How the worker settles the message at the broker. -/
inductive BrokerAction where
  | ack
  | nackRequeue       -- `basic_nack(..., requeue=True)`
  | nackDLQ           -- `basic_nack(..., requeue=False)`: dead-lettered
  deriving DecidableEq, Repr

/-- The `except` handler shared by both consumers (`email_consumer.py`
lines 164–175, `push_consumer.py` lines 189–200): nack without requeue if
the broker marked the delivery redelivered, else nack with requeue. -/
def nack_on_failure (redelivered : Bool) : BrokerAction :=
  if redelivered then .nackDLQ else .nackRequeue

/-- One attempted provider delivery (`send_mail` arguments we track:
rendered subject, rendered body, recipient; for push: rendered title,
rendered body, device token). -/
structure Delivery where
  subject : List Char
  body : List Char
  recipient : List Char
  deriving DecidableEq, Repr

structure ProcessOutcome where
  action : BrokerAction
  /-- Provider invocations attempted while processing this message. -/
  deliveries : List Delivery
  deriving DecidableEq, Repr

/-- `EmailConsumer.process_message`.  `fetch_user`/`fetch_template` are the
behaviours of the two collaborator calls on this message, `send_ok` whether
`send_mail` would return normally, `msg_vars` the message's `variables`,
`redelivered` the broker's redelivery flag. -/
def EmailConsumer_process_message (fetch_user : FetchOutcome UserInfo)
    (fetch_template : FetchOutcome TemplateInfo) (send_ok : Bool)
    (msg_vars : List (List Char × List Char)) (redelivered : Bool) :
    ProcessOutcome :=
  match fetch_user with
  | .raised => ⟨nack_on_failure redelivered, []⟩
  | .returnedNone => ⟨nack_on_failure redelivered, []⟩      -- `if not user_data`
  | .returned usuccess user_info =>
    if ¬ usuccess then ⟨nack_on_failure redelivered, []⟩    -- `not .get('success')`
    else
      match user_info.email with
      | none => ⟨nack_on_failure redelivered, []⟩   -- raise "... has no email address"
      | some user_email =>
        if user_email = [] then ⟨nack_on_failure redelivered, []⟩  -- '' is falsy
        else
          match fetch_template with
          | .raised => ⟨nack_on_failure redelivered, []⟩
          | .returnedNone => ⟨nack_on_failure redelivered, []⟩
          | .returned tsuccess template_info =>
            if ¬ tsuccess then ⟨nack_on_failure redelivered, []⟩
            else if template_info.notification_type ≠ some "email" then
              ⟨nack_on_failure redelivered, []⟩     -- raise "... not an email template"
            else
              let template_content := template_info.content.getD []
              let template_subject := template_info.subject.getD "Notification".data
              let merged := merged_variables (user_info.first_name.getD [])
                (user_info.last_name.getD []) msg_vars
              let email_body := substitute_variables template_content merged
              let email_subject := substitute_variables template_subject merged
              let attempt : Delivery := ⟨email_subject, email_body, user_email⟩
              if send_ok then ⟨.ack, [attempt]⟩
              else ⟨nack_on_failure redelivered, [attempt]⟩

/-- `PushConsumer.process_message`; same shape with `push_token` in place of
`email` and notification type `push`.  The delivery records the rendered
title, rendered body and device token. -/
def PushConsumer_process_message (fetch_user : FetchOutcome UserInfo)
    (fetch_template : FetchOutcome TemplateInfo) (send_ok : Bool)
    (msg_vars : List (List Char × List Char)) (redelivered : Bool) :
    ProcessOutcome :=
  match fetch_user with
  | .raised => ⟨nack_on_failure redelivered, []⟩
  | .returnedNone => ⟨nack_on_failure redelivered, []⟩
  | .returned usuccess user_info =>
    if ¬ usuccess then ⟨nack_on_failure redelivered, []⟩
    else
      match user_info.push_token with
      | none => ⟨nack_on_failure redelivered, []⟩   -- raise "... has no push token"
      | some push_token =>
        if push_token = [] then ⟨nack_on_failure redelivered, []⟩
        else
          match fetch_template with
          | .raised => ⟨nack_on_failure redelivered, []⟩
          | .returnedNone => ⟨nack_on_failure redelivered, []⟩
          | .returned tsuccess template_info =>
            if ¬ tsuccess then ⟨nack_on_failure redelivered, []⟩
            else if template_info.notification_type ≠ some "push" then
              ⟨nack_on_failure redelivered, []⟩
            else
              let template_content := template_info.content.getD []
              let template_title := template_info.subject.getD "Notification".data
              let merged := merged_variables (user_info.first_name.getD [])
                (user_info.last_name.getD []) msg_vars
              let push_body := substitute_variables template_content merged
              let push_title := substitute_variables template_title merged
              let attempt : Delivery := ⟨push_title, push_body, push_token⟩
              if send_ok then ⟨.ack, [attempt]⟩
              else ⟨nack_on_failure redelivered, [attempt]⟩

/-! ## Rendering specification, following the spec's words
("replace every occurrence of `{{key}}` in subject and body with the string
form of `variables[key]`").  These relations are stated independently of
`replaceAll` so that the rendering code can be proved against them. -/

/-- `ReplacedSpec pat rep t u`: `u` is `t` with every occurrence of `pat`
replaced by `rep` — `t` splits into occurrence-free segments separated by
occurrences of `pat`, and `u` is the same split with each occurrence
replaced by `rep`. -/
inductive ReplacedSpec (pat rep : List Char) : List Char → List Char → Prop
  | nowhere (t : List Char) (h : ¬ pat <:+: t) : ReplacedSpec pat rep t t
  | here (a b b' : List Char) (ha : ¬ pat <:+: a) (hb : ReplacedSpec pat rep b b') :
      ReplacedSpec pat rep (a ++ pat ++ b) (a ++ rep ++ b')

/-- `SubstSpec vars t u`: `u` is the result of taking each `(key, value)` of
`vars` in order and replacing every occurrence of the token `{{key}}` by the
string form of `value`. -/
inductive SubstSpec : List (List Char × List Char) → List Char → List Char → Prop
  | nil (t : List Char) : SubstSpec [] t t
  | cons (k v : List Char) (rest : List (List Char × List Char)) (t u w : List Char)
      (h1 : ReplacedSpec (token k) v t u) (h2 : SubstSpec rest u w) :
      SubstSpec ((k, v) :: rest) t w

/-! ## Concrete example inputs (for instantiating the general theorems) -/

/-- A valid email submission carrying `request_id = "r1"`. -/
def reqEx : NotificationRequest :=
  { notification_type := "email"
    user_id := "3fa85f64-5717-4562-b3fc-2c963f66afa6"
    template_code := "welcome"
    vars := [("name".data, "Ann".data)]
    request_id := some "r1"
    priority := 0
    metadata := [] }

/-- A fetched user record with no email address and no push token. -/
def userNoAddr : UserInfo :=
  { email := none
    push_token := none
    first_name := some "Ann".data
    last_name := some "Bell".data
    language := none }

def tmplEmail : TemplateInfo :=
  { notification_type := some "email"
    content := some "Hi {{name}}".data
    subject := some "Hello".data }

def tmplPush : TemplateInfo :=
  { notification_type := some "push"
    content := some "Hi {{name}}".data
    subject := some "Hello".data }

end NotifSys

/-! # Theorems -/

namespace NotifSys

/-! ## Helper lemmas: `replaceAll` -/

theorem replaceAllF_fuel (pat rep : List Char) :
    ∀ f1 f2 t, t.length ≤ f1 → t.length ≤ f2 →
      replaceAllF pat rep f1 t = replaceAllF pat rep f2 t := by
  intro f1
  induction f1 with
  | zero =>
    intro f2 t h1 _
    have : t = [] := List.length_eq_zero.mp (Nat.le_zero.mp h1)
    subst this
    cases f2 <;> simp [replaceAllF]
  | succ f ih =>
    intro f2 t h1 h2
    cases t with
    | nil => cases f2 <;> simp [replaceAllF]
    | cons c t' =>
      cases f2 with
      | zero => simp at h2
      | succ f2' =>
        simp only [replaceAllF]
        by_cases h : pat ≠ [] ∧ pat <+: (c :: t')
        · simp only [if_pos h]
          have hp : 0 < pat.length := List.length_pos.mpr h.1
          have hd : ((c :: t').drop pat.length).length ≤ f := by
            simp only [List.length_drop, List.length_cons]
            simp only [List.length_cons] at h1
            omega
          have hd2 : ((c :: t').drop pat.length).length ≤ f2' := by
            simp only [List.length_drop, List.length_cons]
            simp only [List.length_cons] at h2
            omega
          rw [ih _ _ hd hd2]
        · simp only [if_neg h]
          simp only [List.length_cons] at h1 h2
          rw [ih f2' t' (by omega) (by omega)]

theorem replaceAll_nil (pat rep : List Char) : replaceAll [] pat rep = [] := rfl

theorem replaceAll_cons_match {pat : List Char} (rep : List Char) {c : Char}
    {t : List Char} (hp : pat ≠ []) (hpre : pat <+: (c :: t)) :
    replaceAll (c :: t) pat rep = rep ++ replaceAll ((c :: t).drop pat.length) pat rep := by
  have hlp : 0 < pat.length := List.length_pos.mpr hp
  unfold replaceAll
  have h1 : (c :: t).length = t.length + 1 := by simp
  rw [h1]
  simp only [replaceAllF, if_pos (And.intro hp hpre)]
  congr 1
  apply replaceAllF_fuel
  · simp only [List.length_drop, List.length_cons]; omega
  · exact le_refl _

theorem replaceAll_cons_nomatch {pat : List Char} (rep : List Char) {c : Char}
    {t : List Char} (h : ¬(pat ≠ [] ∧ pat <+: (c :: t))) :
    replaceAll (c :: t) pat rep = c :: replaceAll t pat rep := by
  unfold replaceAll
  have h1 : (c :: t).length = t.length + 1 := by simp
  rw [h1]
  simp only [replaceAllF, if_neg h]

theorem replaceAll_of_no_occurrence {pat : List Char} (rep : List Char)
    (_hp : pat ≠ []) : ∀ {t : List Char}, ¬ pat <:+: t → replaceAll t pat rep = t := by
  intro t
  induction t with
  | nil => intro _; rfl
  | cons c t' ih =>
    intro h
    rw [ List.infix_cons_iff] at h
    push_neg at h
    rw [replaceAll_cons_nomatch rep (fun hc => h.1 hc.2), ih h.2]

theorem ReplacedSpec.cons {pat rep : List Char} {c : Char} {t u : List Char}
    (hnp : ¬ pat <+: (c :: t)) (h : ReplacedSpec pat rep t u) :
    ReplacedSpec pat rep (c :: t) (c :: u) := by
  induction h with
  | nowhere t h0 =>
    apply ReplacedSpec.nowhere
    rw [ List.infix_cons_iff]
    push_neg
    exact ⟨hnp, h0⟩
  | here a b b' ha hb _ =>
    have hca : ¬ pat <:+: (c :: a) := by
      rw [ List.infix_cons_iff]
      push_neg
      constructor
      · intro hpre
        exact hnp (hpre.trans (by simp))
      · exact ha
    have := ReplacedSpec.here (c :: a) b b' hca hb
    simpa using this

/-- `replaceAll` (Python `str.replace`) replaces every occurrence of a
nonempty pattern. -/
theorem replaceAll_replaces {pat : List Char} (rep : List Char) (hp : pat ≠ []) :
    ∀ t : List Char, ReplacedSpec pat rep t (replaceAll t pat rep) := by
  have hlp : 0 < pat.length := List.length_pos.mpr hp
  have main : ∀ n : Nat, ∀ t : List Char, t.length ≤ n →
      ReplacedSpec pat rep t (replaceAll t pat rep) := by
    intro n
    induction n with
    | zero =>
      intro t ht
      have : t = [] := List.length_eq_zero.mp (Nat.le_zero.mp ht)
      subst this
      rw [replaceAll_nil]
      exact ReplacedSpec.nowhere [] (by simp [ List.infix_nil, hp])
    | succ n ih =>
      intro t ht
      cases t with
      | nil =>
        rw [replaceAll_nil]
        exact ReplacedSpec.nowhere [] (by simp [ List.infix_nil, hp])
      | cons c t' =>
        by_cases hpre : pat <+: (c :: t')
        · rw [replaceAll_cons_match rep hp hpre]
          obtain ⟨s, hs⟩ := hpre
          have hdrop : (c :: t').drop pat.length = s := by
            rw [← hs, List.drop_left]
          rw [hdrop]
          have hlen : s.length ≤ n := by
            have : (c :: t').length = pat.length + s.length := by
              rw [← hs, List.length_append]
            simp only [List.length_cons] at this ht
            omega
          have hrep : ReplacedSpec pat rep ([] ++ pat ++ s)
              ([] ++ rep ++ replaceAll s pat rep) :=
            ReplacedSpec.here [] s (replaceAll s pat rep)
              (by simp [ List.infix_nil, hp]) (ih s hlen)
          rw [← hs]
          simpa using hrep
        · rw [replaceAll_cons_nomatch rep (fun hc => hpre hc.2)]
          simp only [List.length_cons] at ht
          exact ReplacedSpec.cons hpre (ih t' (by omega))
  intro t
  exact main t.length t (le_refl _)

theorem token_ne_nil (k : List Char) : token k ≠ [] := by
  simp [token]

/-! ## Helper lemmas: retry -/

theorem retryLoop_success {E A : Type} (beh : Nat → Except E A) :
    ∀ (K c fuel : Nat) (a : A), K ≤ fuel →
      (∀ j, j < K → ∃ e, beh (c + j) = Except.error e) →
      beh (c + K) = Except.ok a →
      retryLoop beh c fuel = (c + K + 1, Except.ok a) := by
  intro K
  induction K with
  | zero =>
    intro c fuel a _ _ hK
    simp only [Nat.add_zero] at hK
    unfold retryLoop
    rw [hK]
  | succ K ih =>
    intro c fuel a hfuel herr hK
    obtain ⟨e, he⟩ := herr 0 (Nat.succ_pos K)
    simp only [Nat.add_zero] at he
    obtain ⟨fuel', rfl⟩ : ∃ f', fuel = f' + 1 :=
      ⟨fuel - 1, by omega⟩
    have step : retryLoop beh c (fuel' + 1) = retryLoop beh (c + 1) fuel' := by
      conv_lhs => rw [retryLoop]
      rw [he]
    have h1 : ∀ j, j < K → ∃ e, beh (c + 1 + j) = Except.error e := by
      intro j hj
      have := herr (j + 1) (by omega)
      simpa [Nat.add_assoc, Nat.add_comm 1 j] using this
    have h2 : beh (c + 1 + K) = Except.ok a := by
      have : c + 1 + K = c + (K + 1) := by omega
      rw [this]; exact hK
    have := ih (c + 1) fuel' a (by omega) h1 h2
    rw [step, this]
    congr 1
    omega

theorem retryLoop_exhaust {E A : Type} (beh : Nat → Except E A) :
    ∀ (fuel c : Nat),
      (∀ j, j ≤ fuel → ∃ e, beh (c + j) = Except.error e) →
      retryLoop beh c fuel = (c + fuel + 1, beh (c + fuel)) := by
  intro fuel
  induction fuel with
  | zero =>
    intro c h
    obtain ⟨e, he⟩ := h 0 (le_refl 0)
    simp only [Nat.add_zero] at he
    unfold retryLoop
    rw [he]
    simp [he]
  | succ fuel ih =>
    intro c h
    obtain ⟨e, he⟩ := h 0 (Nat.zero_le _)
    simp only [Nat.add_zero] at he
    have step : retryLoop beh c (fuel + 1) = retryLoop beh (c + 1) fuel := by
      conv_lhs => rw [retryLoop]
      rw [he]
    have h1 : ∀ j, j ≤ fuel → ∃ e, beh (c + 1 + j) = Except.error e := by
      intro j hj
      have := h (j + 1) (by omega)
      simpa [Nat.add_assoc, Nat.add_comm 1 j] using this
    have := ih (c + 1) h1
    rw [step, this]
    have hh : c + 1 + fuel = c + (fuel + 1) := by omega
    rw [hh]

/-! ## C6 — retry invocation counts -/

/-- C6: for a function wrapped by `retry_with_backoff(retries)` whose
behaviour is `beh`: if it fails `K ≤ retries` times with a retryable
exception and then succeeds, the wrapper invokes it exactly `K + 1` times
and returns the success value; if it fails more than `retries` times, the
wrapper invokes it exactly `retries + 1` times and re-raises the last
failure. -/
theorem C6_retry_invocation_counts {E A : Type} (retries : Nat)
    (beh : Nat → Except E A) :
    (∀ (K : Nat) (a : A), K ≤ retries →
        (∀ j, j < K → ∃ e, beh j = Except.error e) →
        beh K = Except.ok a →
        retry_with_backoff retries beh = (K + 1, Except.ok a))
    ∧ ((∀ j, j ≤ retries → ∃ e, beh j = Except.error e) →
        retry_with_backoff retries beh = (retries + 1, beh retries)) := by
  constructor
  · intro K a hK herr hok
    have := retryLoop_success beh K 0 retries a hK
      (by simpa using herr) (by simpa using hok)
    simpa [retry_with_backoff] using this
  · intro h
    have := retryLoop_exhaust beh retries 0 (by simpa using h)
    simpa [retry_with_backoff] using this

theorem C6_retry_invocation_counts_witness :
    retry_with_backoff 3 (fun j => if j < 2 then (Except.error 0 : Except Nat Nat)
        else Except.ok 42) = (3, Except.ok 42)
    ∧ retry_with_backoff 3 (fun _ => (Except.error 7 : Except Nat Nat))
        = (4, Except.error 7) := by
  constructor
  · exact (C6_retry_invocation_counts 3 _).1 2 42 (by decide)
      (fun j hj => ⟨0, by interval_cases j <;> rfl⟩) rfl
  · exact (C6_retry_invocation_counts 3 _).2 (fun j _ => ⟨7, rfl⟩)

/-! ## C4 — CLOSED → OPEN transition -/

/-- C4 counterexample: with the default thresholds, four failures, then a
success while CLOSED, then a single further failure trips the circuit: the
breaker opens although only one *consecutive* failure has occurred, because
a success while CLOSED does not reset `failure_count`.  Under the claim the
state after this sequence would still be CLOSED. -/
theorem C4_counterexample :
    ((CircuitBreaker.init 5 60).run
        [(1, false), (2, false), (3, false), (4, false), (5, true)]).state
        = CBState.CLOSED
    ∧ ((CircuitBreaker.init 5 60).run
        [(1, false), (2, false), (3, false), (4, false), (5, true), (6, false)]).state
        = CBState.OPEN := by decide

/-- C4 (amended): the breaker transitions from CLOSED to OPEN exactly when
the *cumulative* failure count reaches `failure_threshold`, recording
`last_failure_time`; a successful call while CLOSED leaves the breaker
(including its `failure_count`) unchanged, so earlier, non-consecutive
failures still count toward tripping the circuit. -/
theorem C4_closed_to_open (cb : CircuitBreaker) (now : Nat)
    (h : cb.state = CBState.CLOSED) :
    (cb.call now false).2.failure_count = cb.failure_count + 1
    ∧ (cb.call now false).2.last_failure_time = now
    ∧ (cb.call now false).2.state =
        (if cb.failure_threshold ≤ cb.failure_count + 1 then CBState.OPEN
          else CBState.CLOSED)
    ∧ cb.call now true = (CBOutcome.funcSuccess, cb) := by
  unfold CircuitBreaker.call
  rw [h]
  simp only [reduceCtorEq, if_false, if_neg (by simp : ¬ (CBState.CLOSED = CBState.HALF_OPEN))]
  split_ifs with h1 h2 <;> simp_all [ge_iff_le]

theorem C4_closed_to_open_witness :
    ((CircuitBreaker.init 5 60).call 7 false).2.failure_count = 1
    ∧ ((CircuitBreaker.init 5 60).call 7 false).2.state = CBState.CLOSED
    ∧ (CircuitBreaker.init 5 60).call 7 true
        = (CBOutcome.funcSuccess, CircuitBreaker.init 5 60) := by
  have h := C4_closed_to_open (CircuitBreaker.init 5 60) 7 rfl
  refine ⟨by simpa using h.1, ?_, h.2.2.2⟩
  have := h.2.2.1
  simpa [CircuitBreaker.init] using this

/-! ## C5 — behaviour while OPEN / HALF_OPEN trial -/

/-- C5 counterexample: an OPEN breaker (`recovery_timeout = 60`,
`last_failure_time = 0`) called at `now = 60`, i.e. when exactly
`recovery_timeout` has elapsed: the claim says the state becomes HALF_OPEN
and the trial call is permitted, but the code requires *strictly more* than
`recovery_timeout` to elapse, so the call fails fast with the circuit-open
signal, the wrapped function is not invoked, and the state stays OPEN. -/
theorem C5_counterexample :
    (CircuitBreaker.call ⟨5, 60, CBState.OPEN, 5, 0⟩ 60 true).1
        = CBOutcome.circuitOpen
    ∧ (CircuitBreaker.call ⟨5, 60, CBState.OPEN, 5, 0⟩ 60 true).2
        = ⟨5, 60, CBState.OPEN, 5, 0⟩ := by decide

/-- C5 (amended): while OPEN and at most `recovery_timeout` has elapsed
since `last_failure_time` (in particular while less has elapsed), every
call returns the distinct circuit-open signal without invoking the wrapped
function and without changing the breaker; once *strictly more* than
`recovery_timeout` has elapsed the breaker moves to HALF_OPEN and the one
trial call is made: its success resets the breaker to CLOSED with
`failure_count = 0`, its failure returns it to OPEN with the cooldown clock
restarted (`last_failure_time = now`). -/
theorem C5_open_behaviour (cb : CircuitBreaker) (now : Nat)
    (h : cb.state = CBState.OPEN) :
    (now - cb.last_failure_time ≤ cb.recovery_timeout →
        ∀ ok, cb.call now ok = (CBOutcome.circuitOpen, cb))
    ∧ (cb.recovery_timeout < now - cb.last_failure_time →
        cb.call now true =
          (CBOutcome.funcSuccess,
            { cb with state := CBState.CLOSED, failure_count := 0,
                      last_failure_time := 0 })
        ∧ cb.call now false =
          (CBOutcome.funcFailure,
            { cb with state := CBState.OPEN,
                      failure_count := cb.failure_count + 1,
                      last_failure_time := now })) := by
  constructor
  · intro hle ok
    unfold CircuitBreaker.call
    rw [h]
    simp [Nat.not_lt.mpr hle]
  · intro hlt
    unfold CircuitBreaker.call
    rw [h]
    constructor
    · simp [hlt, CircuitBreaker.reset]
    · simp only [if_pos rfl, if_pos hlt]
      split_ifs with h1 h2 <;> simp_all

/-! ## Helper lemmas: substitution -/

theorem replaceAll_append_of_clean {pat : List Char} (rep : List Char)
    (hp : pat ≠ []) :
    ∀ a : List Char, (∀ i, i < a.length → ¬ pat <+: (a.drop i ++ pat)) →
      replaceAll (a ++ pat) pat rep = a ++ rep := by
  intro a
  induction a with
  | nil =>
    intro _
    cases hpat : pat with
    | nil => exact absurd hpat hp
    | cons c p' =>
      rw [List.nil_append]
      rw [replaceAll_cons_match rep (by simp) (List.prefix_refl _)]
      rw [List.drop_length, replaceAll_nil, List.append_nil, List.nil_append]
  | cons c a' ih =>
    intro h
    have h0 : ¬ pat <+: (c :: (a' ++ pat)) := by
      have := h 0 (Nat.succ_pos _)
      simpa using this
    rw [List.cons_append, replaceAll_cons_nomatch rep (fun hc => h0 hc.2)]
    rw [ih (fun i hi => by simpa using h (i + 1) (by simpa using hi))]
    rfl

theorem substitute_variables_nil (t : List Char) :
    substitute_variables t [] = t := rfl

theorem substitute_variables_cons (t k v : List Char)
    (rest : List (List Char × List Char)) :
    substitute_variables t ((k, v) :: rest)
      = substitute_variables (replaceAll t (token k) v) rest := rfl

/-! ## C7 — template rendering -/

/-- C7: rendering replaces, for each `(key, value)` of the variables map in
order, every occurrence of the token `{{key}}` in the text by the string
form of the value (`SubstSpec`); a key whose token does not occur anywhere
in the text leaves the text untouched (in particular a token whose key is
absent from the map is left literal); rendering is a total function, so no
error is raised; and `"Hi {{name}}"` with `{name: "Ann"}` renders to
`"Hi Ann"`. -/
theorem C7_rendering (t : List Char) (vs : List (List Char × List Char)) :
    SubstSpec vs t (substitute_variables t vs)
    ∧ ((∀ kv ∈ vs, ¬ token kv.1 <:+: t) → substitute_variables t vs = t)
    ∧ substitute_variables "Hi {{name}}".data [("name".data, "Ann".data)]
        = "Hi Ann".data := by
  refine ⟨?_, ?_, ?_⟩
  · induction vs generalizing t with
    | nil => exact SubstSpec.nil t
    | cons kv rest ih =>
      obtain ⟨k, v⟩ := kv
      rw [substitute_variables_cons]
      exact SubstSpec.cons k v rest t _ _
        (replaceAll_replaces v (token_ne_nil k) t) (ih _)
  · induction vs with
    | nil => intro _; rfl
    | cons kv rest ih =>
      intro h
      obtain ⟨k, v⟩ := kv
      rw [substitute_variables_cons,
        replaceAll_of_no_occurrence v (token_ne_nil k) (h (k, v) (by simp))]
      exact ih (fun kv hkv => h kv (by simp [hkv]))
  · decide

theorem C7_rendering_witness :
    substitute_variables "Hello {{other}}".data [("name".data, "Ann".data)]
      = "Hello {{other}}".data := by
  have h := C7_rendering "Hello {{other}}".data [("name".data, "Ann".data)]
  exact h.2.1 (by decide)

/-! ## C10 — implicit `name` variable -/

/-- C10: the worker merges an implicit `name` variable equal to
`first_name + " " + last_name` into the substitution map, with a
caller-supplied `name` taking precedence (the merged map binds `name` to
the caller's value when present, to the user's full name otherwise); as a
consequence a `{{name}}` token is substituted with the user's full name
even when the request supplied no `name` variable. -/
theorem C10_implicit_name_variable (first_name last_name : List Char)
    (vs : List (List Char × List Char)) :
    ((merged_variables first_name last_name vs).lookup "name".data
        = some (match vs.lookup "name".data with
                | some v => v
                | none => first_name ++ ' ' :: last_name))
    ∧ substitute_variables "Hi {{name}}".data
        (merged_variables first_name last_name [])
        = "Hi ".data ++ first_name ++ ' ' :: last_name := by
  constructor
  · simp [merged_variables, List.lookup]
  · have hm : merged_variables first_name last_name []
        = [("name".data, first_name ++ ' ' :: last_name)] := rfl
    rw [hm, substitute_variables_cons, substitute_variables_nil]
    have ht : "Hi {{name}}".data = "Hi ".data ++ token "name".data := by decide
    rw [ht, replaceAll_append_of_clean _ (token_ne_nil _)]
    · simp
    · intro i hi
      have h3 : ("Hi ".data).length = 3 := by decide
      rw [h3] at hi
      interval_cases i <;> decide

theorem C5_open_behaviour_witness :
    CircuitBreaker.call ⟨5, 60, CBState.OPEN, 5, 0⟩ 30 true
        = (CBOutcome.circuitOpen, ⟨5, 60, CBState.OPEN, 5, 0⟩)
    ∧ CircuitBreaker.call ⟨5, 60, CBState.OPEN, 5, 0⟩ 61 true
        = (CBOutcome.funcSuccess, ⟨5, 60, CBState.CLOSED, 0, 0⟩)
    ∧ CircuitBreaker.call ⟨5, 60, CBState.OPEN, 5, 0⟩ 61 false
        = (CBOutcome.funcFailure, ⟨5, 60, CBState.OPEN, 6, 61⟩) := by
  refine ⟨(C5_open_behaviour ⟨5, 60, CBState.OPEN, 5, 0⟩ 30 rfl).1 (by decide) true,
    ?_, ?_⟩
  · exact ((C5_open_behaviour ⟨5, 60, CBState.OPEN, 5, 0⟩ 61 rfl).2 (by decide)).1
  · exact ((C5_open_behaviour ⟨5, 60, CBState.OPEN, 5, 0⟩ 61 rfl).2 (by decide)).2

/-! ## C1 — gateway idempotency -/

/-- C1: a submit whose effective `request_id` is already in the idempotency
store returns the success envelope with the "duplicate" message and HTTP
200, leaves the store unchanged, builds no queue message and never invokes
the publisher; a valid submit whose `request_id` is absent sets the key and
invokes the publisher with exactly one message. -/
theorem C1_gateway_idempotency (publish_ok : Bool) (fresh_id : String)
    (req : NotificationRequest) (keys : List String)
    (hv : serializer_is_valid req = true) :
    (effective_request_id fresh_id req ∈ keys →
        NotificationAPIView_post publish_ok fresh_id req (some keys) =
          { response := duplicate_response
            store := some keys
            publisher_calls := [] })
    ∧ (effective_request_id fresh_id req ∉ keys →
        (NotificationAPIView_post publish_ok fresh_id req (some keys)).store
            = some (effective_request_id fresh_id req :: keys)
        ∧ (NotificationAPIView_post publish_ok fresh_id req (some keys)).publisher_calls
            = [message_payload (effective_request_id fresh_id req) req]) := by
  have hv' := hv
  simp only [serializer_is_valid, Bool.and_eq_true, Bool.or_eq_true,
    beq_iff_eq, bne_iff_ne, ne_eq] at hv'
  constructor
  · intro hmem
    simp [NotificationAPIView_post, check_and_set_idempotency_key, hv, hmem]
  · intro hmem
    cases publish_ok <;>
      simp [NotificationAPIView_post, check_and_set_idempotency_key, hv, hmem,
        hv'.1]

theorem C1_gateway_idempotency_witness :
    NotificationAPIView_post true "f" reqEx (some ["r1"]) =
      { response := duplicate_response
        store := some ["r1"]
        publisher_calls := [] }
    ∧ (NotificationAPIView_post true "f" reqEx (some [])).store = some ["r1"]
    ∧ (NotificationAPIView_post true "f" reqEx (some [])).publisher_calls
        = [message_payload "r1" reqEx] := by
  have h1 := (C1_gateway_idempotency true "f" reqEx ["r1"] (by decide)).1 (by decide)
  have h2 := (C1_gateway_idempotency true "f" reqEx [] (by decide)).2 (by decide)
  exact ⟨h1, h2.1, h2.2⟩

/-! ## C2 — publish failure leaves the key set -/

/-- C2: a valid, first-seen submit whose publish fails returns the
publish-failure envelope (success = false, HTTP 500) while the idempotency
key has already been set, so any subsequent valid submit with the same
effective `request_id` (while the key is unexpired) gets the "duplicate"
response and nothing is published for it. -/
theorem C2_publish_failure_marks_processed (fresh_id : String)
    (req : NotificationRequest) (keys : List String)
    (hv : serializer_is_valid req = true)
    (hnew : effective_request_id fresh_id req ∉ keys) :
    (NotificationAPIView_post false fresh_id req (some keys)).response
        = publish_failure_response
    ∧ (NotificationAPIView_post false fresh_id req (some keys)).store
        = some (effective_request_id fresh_id req :: keys)
    ∧ (∀ (publish_ok' : Bool) (fresh_id' : String) (req' : NotificationRequest),
        serializer_is_valid req' = true →
        effective_request_id fresh_id' req' = effective_request_id fresh_id req →
        NotificationAPIView_post publish_ok' fresh_id' req'
            (NotificationAPIView_post false fresh_id req (some keys)).store =
          { response := duplicate_response
            store := (NotificationAPIView_post false fresh_id req (some keys)).store
            publisher_calls := [] }) := by
  have hv' := hv
  simp only [serializer_is_valid, Bool.and_eq_true, Bool.or_eq_true,
    beq_iff_eq, bne_iff_ne, ne_eq] at hv'
  have hstore : (NotificationAPIView_post false fresh_id req (some keys)).store
      = some (effective_request_id fresh_id req :: keys) := by
    simp [NotificationAPIView_post, check_and_set_idempotency_key, hv, hnew,
      hv'.1]
  refine ⟨?_, hstore, ?_⟩
  · simp [NotificationAPIView_post, check_and_set_idempotency_key, hv, hnew,
      hv'.1]
  · intro publish_ok' fresh_id' req' hv2 hsame
    rw [hstore]
    have := (C1_gateway_idempotency publish_ok' fresh_id' req'
      (effective_request_id fresh_id req :: keys) hv2).1
    exact this (by rw [hsame]; exact List.mem_cons_self _ _)

theorem C2_publish_failure_marks_processed_witness :
    (NotificationAPIView_post false "f" reqEx (some [])).response
        = publish_failure_response
    ∧ (NotificationAPIView_post false "f" reqEx (some [])).store = some ["r1"]
    ∧ NotificationAPIView_post true "g" reqEx
          (NotificationAPIView_post false "f" reqEx (some [])).store =
        { response := duplicate_response
          store := (NotificationAPIView_post false "f" reqEx (some [])).store
          publisher_calls := [] } := by
  have h := C2_publish_failure_marks_processed "f" reqEx [] (by decide) (by decide)
  exact ⟨h.1, h.2.1, h.2.2 true "g" reqEx (by decide) rfl⟩

/-! ## C9 — idempotency silently disabled without Redis -/

/-- C9: when the Redis client is unavailable (`none`),
`check_and_set_idempotency_key` reports "new" for every key and leaves the
store unavailable, so every valid submission — including an exact
resubmission of an already-accepted `request_id` — is published again:
both the first post and an identical second post invoke the publisher with
the same single message, and with a working broker the response is the
"accepted" envelope (success, HTTP 202) rather than a failure. -/
theorem C9_no_redis_disables_idempotency :
    (∀ key : String, check_and_set_idempotency_key none key = (true, none))
    ∧ (∀ (publish_ok : Bool) (fresh_id : String) (req : NotificationRequest),
        serializer_is_valid req = true →
        (NotificationAPIView_post publish_ok fresh_id req none).publisher_calls
            = [message_payload (effective_request_id fresh_id req) req]
        ∧ (NotificationAPIView_post publish_ok fresh_id req none).store = none
        ∧ (NotificationAPIView_post publish_ok fresh_id req
              (NotificationAPIView_post publish_ok fresh_id req none).store).publisher_calls
            = [message_payload (effective_request_id fresh_id req) req]
        ∧ (publish_ok = true →
            (NotificationAPIView_post publish_ok fresh_id req none).response.success = true
            ∧ (NotificationAPIView_post publish_ok fresh_id req none).response.http_status
                = 202)) := by
  constructor
  · intro key; rfl
  · intro publish_ok fresh_id req hv
    have hv' := hv
    simp only [serializer_is_valid, Bool.and_eq_true, Bool.or_eq_true,
      beq_iff_eq, bne_iff_ne, ne_eq] at hv'
    have hmain : ∀ st : Option (List String), st = none →
        (NotificationAPIView_post publish_ok fresh_id req st).publisher_calls
            = [message_payload (effective_request_id fresh_id req) req]
        ∧ (NotificationAPIView_post publish_ok fresh_id req st).store = none
        ∧ (publish_ok = true →
            (NotificationAPIView_post publish_ok fresh_id req st).response.success = true
            ∧ (NotificationAPIView_post publish_ok fresh_id req st).response.http_status
                = 202) := by
      rintro st rfl
      cases publish_ok <;>
        simp [NotificationAPIView_post, check_and_set_idempotency_key, hv,
          hv'.1, accepted_response]
    obtain ⟨h1, h2, h3⟩ := hmain none rfl
    exact ⟨h1, h2, by rw [h2]; exact (hmain none rfl).1, h3⟩

theorem C9_no_redis_disables_idempotency_witness :
    check_and_set_idempotency_key none "r1" = (true, none)
    ∧ (NotificationAPIView_post true "f" reqEx none).publisher_calls
        = [message_payload "r1" reqEx]
    ∧ (NotificationAPIView_post true "f" reqEx
          (NotificationAPIView_post true "f" reqEx none).store).publisher_calls
        = [message_payload "r1" reqEx]
    ∧ (NotificationAPIView_post true "f" reqEx none).response.http_status = 202 := by
  have h := (C9_no_redis_disables_idempotency.2 true "f" reqEx (by decide))
  exact ⟨C9_no_redis_disables_idempotency.1 "r1", h.1, h.2.2.1, (h.2.2.2 rfl).2⟩

/-! ## C3 — missing delivery address -/

/-- C3 counterexample: a message whose fetched user record has no email
address (resp. no push token).  The claim says the worker terminates
successfully as "filtered" without nacking or requeueing; in the code the
consumer raises (`"... has no email address"` / `"... has no push token"`),
so the `except` handler nacks the message with requeue (first delivery).
No delivery is attempted, but the outcome is the failure path, not a
successful ack. -/
theorem C3_counterexample :
    (EmailConsumer_process_message (.returned true userNoAddr)
        (.returned true tmplEmail) true [] false)
      = ⟨BrokerAction.nackRequeue, []⟩
    ∧ (PushConsumer_process_message (.returned true userNoAddr)
        (.returned true tmplPush) true [] false)
      = ⟨BrokerAction.nackRequeue, []⟩ := by decide

/-- C3 (amended): a consumed message whose fetched user record lacks the
delivery address for the channel (no/empty email for email, no/empty push
token for push) ends in the failure path without any delivery attempt: the
consumer raises, and the message is negatively acknowledged — requeued when
not yet redelivered, dead-lettered when redelivered.  There is no successful
"filtered" outcome. -/
theorem C3_missing_address_is_failure (user_info : UserInfo)
    (ft : FetchOutcome TemplateInfo) (send_ok : Bool)
    (msg_vars : List (List Char × List Char)) (redelivered : Bool) :
    ((user_info.email = none ∨ user_info.email = some []) →
        EmailConsumer_process_message (.returned true user_info) ft send_ok
            msg_vars redelivered
          = ⟨nack_on_failure redelivered, []⟩)
    ∧ ((user_info.push_token = none ∨ user_info.push_token = some []) →
        PushConsumer_process_message (.returned true user_info) ft send_ok
            msg_vars redelivered
          = ⟨nack_on_failure redelivered, []⟩) := by
  constructor
  · rintro (h | h) <;> simp [EmailConsumer_process_message, h]
  · rintro (h | h) <;> simp [PushConsumer_process_message, h]

theorem C3_missing_address_is_failure_witness :
    EmailConsumer_process_message (.returned true userNoAddr)
        (.returned true tmplEmail) true [] true
      = ⟨BrokerAction.nackDLQ, []⟩
    ∧ PushConsumer_process_message (.returned true userNoAddr)
        (.returned true tmplPush) true [] true
      = ⟨BrokerAction.nackDLQ, []⟩ := by
  have h := C3_missing_address_is_failure userNoAddr
    (.returned true tmplEmail) true [] true
  have h' := C3_missing_address_is_failure userNoAddr
    (.returned true tmplPush) true [] true
  exact ⟨h.1 (Or.inl rfl), h'.2 (Or.inl rfl)⟩

/-! ## C8 — failure nack policy bounds broker attempts -/

/-- C8: whenever processing of a message fails (in either consumer, for any
collaborator/provider behaviour), the consumer negatively acknowledges it
according to the broker's redelivery flag: without requeue (to the DLQ)
when the message was already redelivered, with requeue otherwise — every
outcome is either an ack or exactly `nack_on_failure redelivered`; and a
message being processed on its redelivery is never requeued again, so
broker-level delivery attempts never exceed two, independent of the
retry-with-backoff wrapped around collaborator calls. -/
theorem C8_redelivery_bounds_attempts :
    (∀ (fu : FetchOutcome UserInfo) (ft : FetchOutcome TemplateInfo)
        (send_ok : Bool) (msg_vars : List (List Char × List Char))
        (redelivered : Bool),
      (EmailConsumer_process_message fu ft send_ok msg_vars redelivered).action
          = BrokerAction.ack
      ∨ (EmailConsumer_process_message fu ft send_ok msg_vars redelivered).action
          = nack_on_failure redelivered)
    ∧ (∀ (fu : FetchOutcome UserInfo) (ft : FetchOutcome TemplateInfo)
        (send_ok : Bool) (msg_vars : List (List Char × List Char))
        (redelivered : Bool),
      (PushConsumer_process_message fu ft send_ok msg_vars redelivered).action
          = BrokerAction.ack
      ∨ (PushConsumer_process_message fu ft send_ok msg_vars redelivered).action
          = nack_on_failure redelivered)
    ∧ (∀ (fu : FetchOutcome UserInfo) (ft : FetchOutcome TemplateInfo)
        (send_ok : Bool) (msg_vars : List (List Char × List Char)),
      (EmailConsumer_process_message fu ft send_ok msg_vars true).action
          ≠ BrokerAction.nackRequeue
      ∧ (PushConsumer_process_message fu ft send_ok msg_vars true).action
          ≠ BrokerAction.nackRequeue) := by
  refine ⟨?_, ?_, ?_⟩
  · intro fu ft send_ok msg_vars redelivered
    unfold EmailConsumer_process_message
    rcases fu with _ | _ | ⟨us, ui⟩
    · right; rfl
    · right; rfl
    · repeat' split
      all_goals first | (left; rfl) | (right; rfl)
  · intro fu ft send_ok msg_vars redelivered
    unfold PushConsumer_process_message
    rcases fu with _ | _ | ⟨us, ui⟩
    · right; rfl
    · right; rfl
    · repeat' split
      all_goals first | (left; rfl) | (right; rfl)
  · intro fu ft send_ok msg_vars
    constructor
    · unfold EmailConsumer_process_message
      rcases fu with _ | _ | ⟨us, ui⟩
      · simp [nack_on_failure]
      · simp [nack_on_failure]
      · repeat' split
        all_goals simp [nack_on_failure]
    · unfold PushConsumer_process_message
      rcases fu with _ | _ | ⟨us, ui⟩
      · simp [nack_on_failure]
      · simp [nack_on_failure]
      · repeat' split
        all_goals simp [nack_on_failure]

end NotifSys
